import Mathlib

/-!
Shallow embedding of the EmpathyEngine frontend scripts.

The repository contains two variants of the same click-handler pipeline:
`src/unnamed/part_000` (namespace `Part000` below) and
`src/Frontend/script.js` (namespace `ScriptJs` below).  Both read the text
box, split it into messages, POST them to the analysis endpoint, and render
the returned analysis result into tags, a breakdown list, a trend box and
three charts.  JavaScript strings are modelled as Lean `String`, JS arrays
as `List`, JS objects used as ordered string-keyed maps as association
lists (JS object iteration order for non-numeric keys is insertion order),
and JSON numbers carried through unchanged as `Rat`.  The DOM surfaces the
scripts touch are modelled by the `Dom` structure; a canvas is modelled as
the list of charts drawn onto it since its last full clear.
-/

/-- The whitespace test used by JavaScript `String.prototype.trim`:
ASCII whitespace, NBSP, BOM, and the Unicode space separators. -/
def jsWhitespaceChar (c : Char) : Bool :=
  c = ' ' || c = '\t' || c = '\n' || c = '\r' || c = '\x0b' || c = '\x0c' ||
  c.toNat = 0xa0 || c.toNat = 0x1680 ||
  (0x2000 ≤ c.toNat && c.toNat ≤ 0x200a) ||
  c.toNat = 0x2028 || c.toNat = 0x2029 || c.toNat = 0x202f ||
  c.toNat = 0x205f || c.toNat = 0x3000 || c.toNat = 0xfeff

/-- JavaScript `s.trim()`: drop leading and trailing whitespace. -/
def jsTrim (s : String) : String :=
  ⟨((s.data.dropWhile jsWhitespaceChar).reverse.dropWhile jsWhitespaceChar).reverse⟩

/-- Helper for `jsSplitNewline`: accumulates the current segment (reversed)
while scanning the character list. -/
def splitNlAux : List Char → List Char → List (List Char)
  | [], acc => [acc.reverse]
  | c :: cs, acc =>
      if c = '\n' then acc.reverse :: splitNlAux cs [] else splitNlAux cs (c :: acc)

/-- JavaScript `s.split("\n")`: the segments of `s` between newline
characters, keeping empty segments (so the empty string splits to `[""]`
and a trailing newline yields a trailing empty segment). -/
def jsSplitNewline (s : String) : List String :=
  (splitNlAux s.data []).map (fun l => ⟨l⟩)

/-- Both variants, click handler: the message list
`rawText.split("\n").filter(m => m.trim() !== "")`
(`src/unnamed/part_000` line 24, `src/Frontend/script.js` line 20). -/
def buildMessages (rawText : String) : List String :=
  (jsSplitNewline rawText).filter (fun m => jsTrim m != "")

/-- Spec-side reading of the message-list contract, for comparison with
`buildMessages`: the input split on line breaks with the blank
(whitespace-only) lines removed, order preserved. -/
def messagesSpec (rawText : String) : List String :=
  (jsSplitNewline rawText).filter (fun m => !(m.data.all jsWhitespaceChar))

/-- Hexadecimal digit (lowercase), as produced by `JSON.stringify` when it
escapes a control character. -/
def hexDigit (n : Nat) : Char :=
  if n < 10 then Char.ofNat (48 + n) else Char.ofNat (87 + n)

/-- The escape `JSON.stringify` applies to one character inside a string:
quote and backslash are backslash-escaped, the named control escapes are
used where defined, other control characters become `\u00xx`, and
everything else is passed through. -/
def jsonEscapeChar (c : Char) : String :=
  if c = '"' then "\\\""
  else if c = '\\' then "\\\\"
  else if c = '\x08' then "\\b"
  else if c = '\x09' then "\\t"
  else if c = '\x0a' then "\\n"
  else if c = '\x0c' then "\\f"
  else if c = '\x0d' then "\\r"
  else if c.toNat < 32 then
    "\\u00" ++ String.singleton (hexDigit (c.toNat / 16)) ++
      String.singleton (hexDigit (c.toNat % 16))
  else String.singleton c

/-- `JSON.stringify` of one string. -/
def jsonQuote (s : String) : String :=
  "\"" ++ String.join (s.data.map jsonEscapeChar) ++ "\""

/-- `JSON.stringify` of an array of strings. -/
def jsonStringArray (xs : List String) : String :=
  "[" ++ String.intercalate (",") (xs.map jsonQuote) ++ "]"

/-- Both variants, `analyzeChat`: the request body
`JSON.stringify({ messages })`. -/
def serializePayload (messages : List String) : String :=
  "\x7b\"messages\":" ++ jsonStringArray messages ++ "\x7d"

/-- The request body produced for a given raw input text: the message list
is built by the click handler and serialized by `analyzeChat`. -/
def requestBody (rawText : String) : String :=
  serializePayload (buildMessages rawText)

/-- One entry of the response `timeline`: `{text, emotion, score}`. -/
structure TimelineEntry where
  text : String
  emotion : String
  score : Rat

/-- The analysis response consumed by the renderer: `emotional_trend`,
`emotion_distribution` (ordered string-keyed object of counts), and
`timeline`. -/
structure AnalysisResult where
  emotional_trend : String
  emotion_distribution : List (String × Nat)
  timeline : List TimelineEntry

/-- JS object property read `table[e]` on an emotion-color object:
`some` color when the key is present, `none` (undefined) otherwise. -/
def lookupColor (table : List (String × String)) (e : String) : Option String :=
  (table.find? (fun p => p.1 == e)).map (fun p => p.2)

/-- One rendered summary tag: a `span` with class `"tag"`, border color,
text color, and text content. -/
structure Tag where
  className : String
  borderColor : String
  color : String
  text : String

/-- Both variants, summary tags: one tag per key of the distribution, in
key order, text `` `${emotion} (${distribution[emotion]})` ``, border and
text color `emotionColors[emotion] || "#888"`. -/
def renderTags (table : List (String × String)) (dist : List (String × Nat)) : List Tag :=
  dist.map (fun p =>
    { className := "tag"
      borderColor := (lookupColor table p.1).getD ("#888")
      color := (lookupColor table p.1).getD ("#888")
      text := p.1 ++ " (" ++ toString p.2 ++ ")" })

/-- Both variants, breakdown list: one `div.innerHTML` string per timeline
entry, built by the variant's template `tmpl` from the 1-based index, the
entry's text and emotion, and `emotionColors[item.emotion] || "#888"`. -/
def breakdownItems (tmpl : Nat → String → String → String → String)
    (table : List (String × String)) (tl : List TimelineEntry) : List String :=
  tl.mapIdx (fun i item =>
    tmpl (i + 1) item.text item.emotion ((lookupColor table item.emotion).getD ("#888")))

/-- The line-chart dataset of the timeline chart. -/
structure LineDataset where
  label : String
  data : List Rat
  borderColor : String
  pointBackgroundColor : List (Option String)
  borderWidth : Nat
  tension : Rat

/-- The `Chart` configuration built for the timeline (line) chart. -/
structure LineChartCfg where
  labels : List String
  datasets : List LineDataset
  yMin : Rat
  yMax : Rat

/-- Both variants, line chart: labels `` `Message ${i + 1}` ``, one dataset
named `"Intensity"` with the timeline scores as data, point colors
`emotionColors[t.emotion]` (no fallback), y scale `min: 0, max: 1`. -/
def mkLineChart (table : List (String × String)) (tl : List TimelineEntry) : LineChartCfg :=
  { labels := tl.mapIdx (fun i _ => "Message " ++ toString (i + 1))
    datasets := [{ label := "Intensity"
                   data := tl.map (fun t => t.score)
                   borderColor := "#38bdf8"
                   pointBackgroundColor := tl.map (fun t => lookupColor table t.emotion)
                   borderWidth := 3
                   tension := 0.4 }]
    yMin := 0
    yMax := 1 }

/-- The `Chart` configuration built for the pie chart. -/
structure PieChartCfg where
  labels : List String
  data : List Nat
  backgroundColor : List (Option String)

/-- Both variants, pie chart: labels `Object.keys(distribution)`, data
`Object.values(distribution)`, colors
`Object.keys(distribution).map(e => emotionColors[e])` (no fallback). -/
def mkPieChart (table : List (String × String)) (dist : List (String × Nat)) : PieChartCfg :=
  { labels := dist.map (fun p => p.1)
    data := dist.map (fun p => p.2)
    backgroundColor := dist.map (fun p => lookupColor table p.1) }

/-- The `Chart` configuration built for the bar chart. -/
structure BarChartCfg where
  label : String
  labels : List String
  data : List Nat
  backgroundColor : List (Option String)
  beginAtZero : Bool

/-- Both variants, bar chart: dataset labelled `"Count"`, same labels, data
and colors as the pie chart, and `y: { beginAtZero: true }`. -/
def mkBarChart (table : List (String × String)) (dist : List (String × Nat)) : BarChartCfg :=
  { label := "Count"
    labels := dist.map (fun p => p.1)
    data := dist.map (fun p => p.2)
    backgroundColor := dist.map (fun p => lookupColor table p.1)
    beginAtZero := true }

/-- The DOM surfaces touched by the scripts.  `hiddenSections` records
whether the result sections still carry the `"hidden"` class; each chart
canvas is the list of charts drawn onto it since it was last cleared. -/
structure Dom where
  hiddenSections : Bool
  tags : List Tag
  breakdown : List String
  trendBox : String
  timelineChart : List LineChartCfg
  pieChart : List PieChartCfg
  barChart : List BarChartCfg

/-- A page as first loaded: result sections hidden, every surface empty. -/
def emptyDom : Dom :=
  { hiddenSections := true
    tags := []
    breakdown := []
    trendBox := ""
    timelineChart := []
    pieChart := []
    barChart := [] }

/-- Both variants, `showSections()`: removes the `"hidden"` class from the
result sections. -/
def showSections (dom : Dom) : Dom :=
  { dom with hiddenSections := false }

/-- Both variants, the fill phase of the click handler after the clears:
writes the trend text, appends one tag per distribution key, appends one
breakdown item per timeline entry, and constructs the three charts on
their canvases.  The variant's color table and breakdown template are
passed in. -/
def fillStep (table : List (String × String)) (tmpl : Nat → String → String → String → String)
    (dom : Dom) (r : AnalysisResult) : Dom :=
  { dom with
    trendBox := r.emotional_trend
    tags := dom.tags ++ renderTags table r.emotion_distribution
    breakdown := dom.breakdown ++ breakdownItems tmpl table r.timeline
    timelineChart := dom.timelineChart ++ [mkLineChart table r.timeline]
    pieChart := dom.pieChart ++ [mkPieChart table r.emotion_distribution]
    barChart := dom.barChart ++ [mkBarChart table r.emotion_distribution] }

/-- `Response.ok` for a given HTTP status: status in the range 200–299. -/
def statusOk (status : Nat) : Bool :=
  200 ≤ status && status < 300

/-- The environment's answer to the `fetch` call: either the fetch itself
fails (network error), or a response arrives with an HTTP status and a
body whose JSON parse (`response.json()`) either succeeds with an
`AnalysisResult` or fails with a parse error. -/
inductive FetchOutcome where
  | networkError (msg : String)
  | response (status : Nat) (body : Except String AnalysisResult)

/-- What one click produced: the DOM afterwards, the alerts shown, and an
error that escaped the handler unhandled (if any). -/
structure ClickOutcome where
  dom : Dom
  alerts : List String
  unhandled : Option String

namespace Part000

/-- `src/unnamed/part_000` lines 45–56: the emotion color table. -/
def emotionColors : List (String × String) :=
  [("admiration", "#6A5ACD"), ("amusement", "#FFB347"), ("anger", "#FF4500"),
   ("annoyance", "#FF6347"), ("approval", "#4B0082"), ("caring", "#DB7093"),
   ("confusion", "#8A2BE2"), ("curiosity", "#20B2AA"), ("desire", "#FF69B4"),
   ("disappointment", "#708090"), ("disapproval", "#A52A2A"), ("disgust", "#556B2F"),
   ("embarrassment", "#CD5C5C"), ("excitement", "#FFA500"), ("fear", "#8B0000"),
   ("gratitude", "#32CD32"), ("grief", "#2F4F4F"), ("joy", "#FFD700"),
   ("love", "#FF1493"), ("nervousness", "#E9967A"), ("optimism", "#00FA9A"),
   ("pride", "#4682B4"), ("realization", "#7B68EE"), ("relief", "#87CEEB"),
   ("remorse", "#8B4513"), ("sadness", "#1E90FF"), ("surprise", "#00CED1"),
   ("neutral", "#604b61ff"), ("uncertain", "#999999")]

/-- `src/unnamed/part_000` lines 7–19, `analyzeChat`: on network failure the
error propagates; otherwise `if (!response.ok)` it throws
`"Backend error: " + response.status`; otherwise it returns the outcome of
`response.json()`. -/
def analyzeChat (f : FetchOutcome) : Except String AnalysisResult :=
  match f with
  | .networkError m => .error m
  | .response status body =>
      if !(statusOk status) then .error ("Backend error: " ++ toString status) else body

/-- `src/unnamed/part_000` lines 81–84: the breakdown item template
(template literal interpolating index + 1, the raw text, the resolved
color and the raw emotion, with no escaping). -/
def msgItemHtml (idx : Nat) (text emotion color : String) : String :=
  "\n      <b>" ++ toString idx ++ ". \"" ++ text ++
    ("\"</b><br>\n      Emotion: <span class=\"emotionLabel\" style=\"background:" ++
      color ++ "\">" ++ emotion ++ "</span>\n    ")

/-- `src/unnamed/part_000` lines 37–42: sets `innerHTML = ""` on the tags,
breakdown and trend boxes and calls `clearRect(0, 0, 400, 400)` on the
three chart canvases (the `clearRect` is modelled as a full clear of the
canvas's drawn charts). -/
def clearStep (dom : Dom) : Dom :=
  { dom with
    tags := []
    breakdown := []
    trendBox := ""
    timelineChart := []
    pieChart := []
    barChart := [] }

/-- `src/unnamed/part_000` lines 35–139: the render phase of the click
handler — `showSections()`, the explicit clears, then the fill phase. -/
def render (dom : Dom) (r : AnalysisResult) : Dom :=
  fillStep emotionColors msgItemHtml (clearStep (showSections dom)) r

/-- `src/unnamed/part_000` lines 21–140: the click handler.  The message
building and fetch are summarised by the `FetchOutcome`; on a thrown error
the handler alerts `"Error connecting to backend: " + err.message` and
returns before touching the DOM, otherwise it renders. -/
def clickHandler (dom : Dom) (f : FetchOutcome) : ClickOutcome :=
  match analyzeChat f with
  | .error e => { dom := dom, alerts := ["Error connecting to backend: " ++ e], unhandled := none }
  | .ok r => { dom := render dom r, alerts := [], unhandled := none }

end Part000

namespace ScriptJs

/-- `src/Frontend/script.js` lines 32–45: the emotion color table (same as
the other variant, but without the `uncertain` entry). -/
def emotionColors : List (String × String) :=
  [("admiration", "#6A5ACD"), ("amusement", "#FFB347"), ("anger", "#FF4500"),
   ("annoyance", "#FF6347"), ("approval", "#4B0082"), ("caring", "#DB7093"),
   ("confusion", "#8A2BE2"), ("curiosity", "#20B2AA"), ("desire", "#FF69B4"),
   ("disappointment", "#708090"), ("disapproval", "#A52A2A"), ("disgust", "#556B2F"),
   ("embarrassment", "#CD5C5C"), ("excitement", "#FFA500"), ("fear", "#8B0000"),
   ("gratitude", "#32CD32"), ("grief", "#2F4F4F"), ("joy", "#FFD700"),
   ("love", "#FF1493"), ("nervousness", "#E9967A"), ("optimism", "#00FA9A"),
   ("pride", "#4682B4"), ("realization", "#7B68EE"), ("relief", "#87CEEB"),
   ("remorse", "#8B4513"), ("sadness", "#1E90FF"), ("surprise", "#00CED1"),
   ("neutral", "#604b61ff")]

/-- `src/Frontend/script.js` lines 7–15, `analyzeChat`: on network failure
the error propagates; otherwise the body is JSON-parsed regardless of the
HTTP status — there is no `response.ok` check. -/
def analyzeChat (f : FetchOutcome) : Except String AnalysisResult :=
  match f with
  | .networkError m => .error m
  | .response _ body => body

/-- `src/Frontend/script.js` lines 83–87: the breakdown item template (the
same interpolation as the other variant, with a line break after
`Emotion:`). -/
def msgItemHtml (idx : Nat) (text emotion color : String) : String :=
  "\n      <b>" ++ toString idx ++ ". \"" ++ text ++
    ("\"</b><br>\n      Emotion: \n      <span class=\"emotionLabel\" style=\"background:" ++
      color ++ "\">" ++ emotion ++ "</span>\n    ")

/-- `src/Frontend/script.js` lines 27–29: sets `innerHTML = ""` on the
tags, breakdown and trend boxes.  The chart canvases are NOT cleared in
this variant. -/
def clearStep (dom : Dom) : Dom :=
  { dom with
    tags := []
    breakdown := []
    trendBox := "" }

/-- `src/Frontend/script.js` lines 25–146: the render phase of the click
handler — `showSections()`, the three clears, then the fill phase. -/
def render (dom : Dom) (r : AnalysisResult) : Dom :=
  fillStep emotionColors msgItemHtml (clearStep (showSections dom)) r

/-- `src/Frontend/script.js` lines 17–148: the click handler.  There is no
try/catch around `await analyzeChat(messages)`, so a thrown error escapes
the handler as an unhandled rejection: no alert is shown and the DOM is
left untouched. -/
def clickHandler (dom : Dom) (f : FetchOutcome) : ClickOutcome :=
  match analyzeChat f with
  | .error e => { dom := dom, alerts := [], unhandled := some e }
  | .ok r => { dom := render dom r, alerts := [], unhandled := none }

end ScriptJs

/-- If everything left after `dropWhile w` satisfies `w`, nothing was left:
the first survivor of `dropWhile` falsifies `w`. -/
theorem dropWhile_all_nil (w : Char → Bool) :
    ∀ l : List Char, (∀ x ∈ List.dropWhile w l, w x = true) → List.dropWhile w l = [] := by
  intro l
  induction l with
  | nil => intro _; rfl
  | cons a t ih =>
      intro h
      cases hwa : w a with
      | true => simp only [List.dropWhile_cons, hwa, if_true] at h ⊢; exact ih h
      | false =>
          exfalso
          have : w a = true := by
            apply h
            simp [List.dropWhile_cons, hwa]
          simp [hwa] at this

/-- `m.trim() === ""` holds exactly when every character of `m` is
whitespace. -/
theorem jsTrim_eq_empty_iff (s : String) :
    (jsTrim s = "") ↔ s.data.all jsWhitespaceChar = true := by
  rw [String.ext_iff]
  show ((s.data.dropWhile jsWhitespaceChar).reverse.dropWhile jsWhitespaceChar).reverse = [] ↔ _
  rw [List.reverse_eq_nil_iff, List.dropWhile_eq_nil_iff, List.all_eq_true]
  constructor
  · intro h
    have h0 : List.dropWhile jsWhitespaceChar s.data = [] := by
      apply dropWhile_all_nil
      intro x hx
      exact h x (List.mem_reverse.mpr hx)
    intro x hx
    exact List.dropWhile_eq_nil_iff.mp h0 x hx
  · intro h x hx
    exact h x ((List.dropWhile_sublist _).subset (List.mem_reverse.mp hx))

/-- C1: for every raw input text the message list sent in the request is
the input split on the newline character with the blank (whitespace-only)
lines removed, in order; for empty input the list is empty and the
serialized payload's `messages` field is the empty array. -/
theorem c1_messages_payload (rawText : String) :
    buildMessages rawText = messagesSpec rawText ∧
    buildMessages "" = [] ∧
    requestBody "" = "\x7b\"messages\":[]\x7d" := by
  refine ⟨?_, by decide, by decide⟩
  apply List.filter_congr
  intro m _
  have h := jsTrim_eq_empty_iff m
  cases hall : m.data.all jsWhitespaceChar with
  | true =>
      have : jsTrim m = "" := h.mpr hall
      simp [this, hall]
  | false =>
      have : ¬ jsTrim m = "" := fun he => by simp [h.mp he] at hall
      simp [hall, bne_iff_ne, this]

/-- C9: a kept line is passed to the request exactly as typed — the message
list is a sublist of the raw split (no per-line rewriting), and a line with
leading and trailing whitespace around content is kept with that
whitespace intact. -/
theorem c9_untrimmed_lines (rawText : String) :
    (buildMessages rawText).Sublist (jsSplitNewline rawText) ∧
    buildMessages ("  hi  \nok") = ["  hi  ", "ok"] := by
  exact ⟨List.filter_sublist _, by decide⟩

/-- Mapping a function of the index alone over a list is mapping it over
`range` of the list's length. -/
theorem mapIdx_ignore_elem {α β : Type} (l : List α) (g : Nat → β) :
    List.mapIdx (fun i _ => g i) l = (List.range l.length).map g := by
  induction l generalizing g with
  | nil => rfl
  | cons a t ih =>
      rw [List.mapIdx_cons, List.length_cons, List.range_succ_eq_map, List.map_cons,
        List.map_map, ih]
      rfl

/-- C6: the tag summary renders exactly one tag per distribution key, in
key order, with text `"<emotion> (<count>)"` and border and text color the
color-table entry or `"#888"` when the emotion is unknown; both variants
pass their own color table. -/
theorem c6_tag_summary (table : List (String × String)) (dist : List (String × Nat))
    (dom : Dom) (r : AnalysisResult) :
    (renderTags table dist).length = dist.length ∧
    renderTags table dist = dist.map (fun p =>
      { className := "tag"
        borderColor := (lookupColor table p.1).getD ("#888")
        color := (lookupColor table p.1).getD ("#888")
        text := p.1 ++ " (" ++ toString p.2 ++ ")" }) ∧
    (Part000.render dom r).tags = renderTags Part000.emotionColors r.emotion_distribution ∧
    (ScriptJs.render dom r).tags = renderTags ScriptJs.emotionColors r.emotion_distribution := by
  exact ⟨List.length_map _ _, rfl, rfl, rfl⟩

/-- C7: the line chart has exactly one dataset, named `"Intensity"`, whose
data is the timeline's scores in order; the labels are `"Message N"` for
the 1-based index `N`, labels and data both have the timeline's length,
and the y axis is fixed to `[0, 1]`. -/
theorem c7_line_chart (table : List (String × String)) (tl : List TimelineEntry)
    (dom : Dom) (r : AnalysisResult) :
    (mkLineChart table tl).datasets.length = 1 ∧
    (mkLineChart table tl).datasets.map (fun d => d.label) = ["Intensity"] ∧
    (mkLineChart table tl).datasets.map (fun d => d.data) = [tl.map (fun t => t.score)] ∧
    (mkLineChart table tl).labels =
      (List.range tl.length).map (fun i => "Message " ++ toString (i + 1)) ∧
    (mkLineChart table tl).labels.length = tl.length ∧
    (mkLineChart table tl).datasets.map (fun d => d.data.length) = [tl.length] ∧
    (mkLineChart table tl).yMin = 0 ∧
    (mkLineChart table tl).yMax = 1 ∧
    (Part000.render dom r).timelineChart = [mkLineChart Part000.emotionColors r.timeline] := by
  refine ⟨rfl, rfl, ?_, ?_, ?_, ?_, rfl, rfl, rfl⟩
  · simp [mkLineChart]
  · exact mapIdx_ignore_elem tl (fun i => "Message " ++ toString (i + 1))
  · show (List.mapIdx _ tl).length = tl.length
    exact List.length_mapIdx
  · simp [mkLineChart]

/-- C8: the pie chart and the bar chart are identical projections of the
distribution — equal label, data and color sequences, each being the keys,
counts and per-key color-table lookups in key order — and the bar chart's
y axis begins at zero. -/
theorem c8_pie_bar_agree (table : List (String × String)) (dist : List (String × Nat))
    (dom : Dom) (r : AnalysisResult) :
    (mkPieChart table dist).labels = (mkBarChart table dist).labels ∧
    (mkPieChart table dist).data = (mkBarChart table dist).data ∧
    (mkPieChart table dist).backgroundColor = (mkBarChart table dist).backgroundColor ∧
    (mkPieChart table dist).labels = dist.map (fun p => p.1) ∧
    (mkPieChart table dist).data = dist.map (fun p => p.2) ∧
    (mkPieChart table dist).backgroundColor = dist.map (fun p => lookupColor table p.1) ∧
    (mkBarChart table dist).beginAtZero = true ∧
    (Part000.render dom r).pieChart = [mkPieChart Part000.emotionColors r.emotion_distribution] ∧
    (Part000.render dom r).barChart = [mkBarChart Part000.emotionColors r.emotion_distribution] := by
  exact ⟨rfl, rfl, rfl, rfl, rfl, rfl, rfl, rfl, rfl⟩

/-- C2 (counterexample): for the unknown emotion `"zeal"` the chart color
sequences come out as `none` (JavaScript `undefined`), not as the fallback
`"#888"` — the claim that every emotion-colored surface uses `"#888"` for
unknown labels is false for the line-chart points, the pie slices and the
bars. -/
theorem c2_counterexample :
    lookupColor Part000.emotionColors ("zeal") = none ∧
    (mkPieChart Part000.emotionColors [(("zeal"), 2)]).backgroundColor = [none] ∧
    (mkBarChart Part000.emotionColors [(("zeal"), 2)]).backgroundColor = [none] ∧
    (mkLineChart Part000.emotionColors [⟨"hi", "zeal", 1⟩]).datasets.map
      (fun d => d.pointBackgroundColor) = [[none]] ∧
    (none : Option String) ≠ some ("#888") := by
  exact ⟨by decide, by decide, by decide, rfl, by decide⟩

/-- C2 (amended): the summary tags and the breakdown labels resolve an
unknown emotion to the fallback `"#888"`; the line-chart point colors and
the pie- and bar-chart colors use the bare color-table lookup, which
yields no color (`undefined`) for an unknown emotion.  Rendering is a
total function, so it never throws. -/
theorem c2_fallback_colors (table : List (String × String)) (dist : List (String × Nat))
    (tl : List TimelineEntry) :
    (renderTags table dist).map (fun t => t.borderColor) =
      dist.map (fun p => (lookupColor table p.1).getD ("#888")) ∧
    (renderTags table dist).map (fun t => t.color) =
      dist.map (fun p => (lookupColor table p.1).getD ("#888")) ∧
    breakdownItems Part000.msgItemHtml table tl =
      tl.mapIdx (fun i item => Part000.msgItemHtml (i + 1) item.text item.emotion
        ((lookupColor table item.emotion).getD ("#888"))) ∧
    breakdownItems Part000.msgItemHtml Part000.emotionColors [⟨"hi", "zeal", 1⟩] =
      [Part000.msgItemHtml 1 ("hi") ("zeal") ("#888")] ∧
    (mkLineChart table tl).datasets.map (fun d => d.pointBackgroundColor) =
      [tl.map (fun t => lookupColor table t.emotion)] ∧
    (mkPieChart table dist).backgroundColor = dist.map (fun p => lookupColor table p.1) ∧
    (mkBarChart table dist).backgroundColor = dist.map (fun p => lookupColor table p.1) := by
  refine ⟨?_, ?_, rfl, rfl, rfl, rfl, rfl⟩
  · rw [renderTags, List.map_map]; rfl
  · rw [renderTags, List.map_map]; rfl

/-- A fixed concrete analysis result used by the concrete rendering
theorems (empty timeline, one known emotion). -/
def sampleResult : AnalysisResult :=
  { emotional_trend := "steady"
    emotion_distribution := [(("joy"), 1)]
    timeline := [] }

/-- C5 (counterexample): in the `src/Frontend/script.js` variant the chart
canvases are not cleared, so rendering the same result twice does not
yield the same final visual state as rendering it once — a second chart
accumulates on the timeline canvas. -/
theorem c5_counterexample :
    ScriptJs.render (ScriptJs.render emptyDom sampleResult) sampleResult ≠
      ScriptJs.render emptyDom sampleResult := by
  intro h
  have h1 : (ScriptJs.render (ScriptJs.render emptyDom sampleResult)
      sampleResult).timelineChart.length = 2 := rfl
  have h2 : (ScriptJs.render emptyDom sampleResult).timelineChart.length = 1 := rfl
  rw [h, h2] at h1
  exact absurd h1 (by decide)

/-- C5 (amended): the `part_000` renderer first clears every surface —
tags, breakdown, trend text and all three canvases — so its output is
independent of the prior DOM and re-rendering is idempotent; the
`script.js` renderer clears only tags, breakdown and trend text, so those
surfaces (and hence the tag and breakdown counts) do not accumulate, but
each render appends a fresh chart to the uncleared canvases. -/
theorem c5_reset_idempotence (dom dom2 : Dom) (r : AnalysisResult) :
    Part000.clearStep (showSections dom) =
      { hiddenSections := false, tags := [], breakdown := [], trendBox := "",
        timelineChart := [], pieChart := [], barChart := [] } ∧
    Part000.render dom r = Part000.render dom2 r ∧
    Part000.render (Part000.render dom r) r = Part000.render dom r ∧
    ScriptJs.clearStep (showSections dom) =
      { dom with hiddenSections := false, tags := [], breakdown := [], trendBox := "" } ∧
    (ScriptJs.render dom r).tags = renderTags ScriptJs.emotionColors r.emotion_distribution ∧
    (ScriptJs.render dom r).breakdown =
      breakdownItems ScriptJs.msgItemHtml ScriptJs.emotionColors r.timeline ∧
    (ScriptJs.render dom r).trendBox = r.emotional_trend ∧
    (ScriptJs.render dom r).timelineChart =
      dom.timelineChart ++ [mkLineChart ScriptJs.emotionColors r.timeline] := by
  exact ⟨rfl, rfl, rfl, rfl, rfl, rfl, rfl, rfl⟩

/-- C10: the trend text and the breakdown markup interpolate the
response's strings verbatim (no escaping): the trend box receives
`emotional_trend` unchanged in both variants, each breakdown item contains
the raw message text and the raw emotion label as substrings, and a text
containing HTML tags appears in the markup as markup, unescaped. -/
theorem c10_raw_interpolation (dom : Dom) (r : AnalysisResult) (idx : Nat)
    (t e c : String) :
    (Part000.render dom r).trendBox = r.emotional_trend ∧
    (ScriptJs.render dom r).trendBox = r.emotional_trend ∧
    (∃ pre post, Part000.msgItemHtml idx t e c = pre ++ t ++ post) ∧
    (∃ pre post, Part000.msgItemHtml idx t e c = pre ++ e ++ post) ∧
    (∃ pre post, ScriptJs.msgItemHtml idx t e c = pre ++ t ++ post) ∧
    Part000.msgItemHtml 1 ("<b>x</b>") ("zeal") ("#888") =
      "\n      <b>1. \"<b>x</b>\"</b><br>\n      Emotion: <span class=\"emotionLabel\" style=\"background:#888\">zeal</span>\n    " := by
  refine ⟨rfl, rfl, ?_, ?_, ?_, by decide⟩
  · exact ⟨"\n      <b>" ++ toString idx ++ ". \"",
      "\"</b><br>\n      Emotion: <span class=\"emotionLabel\" style=\"background:" ++
        c ++ "\">" ++ e ++ "</span>\n    ", rfl⟩
  · refine ⟨"\n      <b>" ++ toString idx ++ ". \"" ++ t ++
      "\"</b><br>\n      Emotion: <span class=\"emotionLabel\" style=\"background:" ++
        c ++ "\">", "</span>\n    ", ?_⟩
    simp only [Part000.msgItemHtml, String.append_assoc]
  · exact ⟨"\n      <b>" ++ toString idx ++ ". \"",
      "\"</b><br>\n      Emotion: \n      <span class=\"emotionLabel\" style=\"background:" ++
        c ++ "\">" ++ e ++ "</span>\n    ", rfl⟩

/-- C3 (counterexample): in the `src/Frontend/script.js` variant a network
failure makes the analysis call throw, yet the click handler shows no
alert — the error escapes unhandled — so the claim that every variant
presents a user-visible failure notice is false.  (The DOM is still left
untouched.) -/
theorem c3_counterexample :
    ScriptJs.analyzeChat (FetchOutcome.networkError ("Failed to fetch")) =
      Except.error ("Failed to fetch") ∧
    (ScriptJs.clickHandler emptyDom (FetchOutcome.networkError ("Failed to fetch"))).alerts = [] ∧
    (ScriptJs.clickHandler emptyDom (FetchOutcome.networkError ("Failed to fetch"))).unhandled =
      some ("Failed to fetch") ∧
    (ScriptJs.clickHandler emptyDom (FetchOutcome.networkError ("Failed to fetch"))).dom =
      emptyDom := by
  exact ⟨rfl, rfl, rfl, rfl⟩

/-- C3 (amended): when the analysis call throws, the `part_000` handler
alerts `"Error connecting to backend: " + err.message` and returns with
the DOM untouched (so hidden sections stay hidden and no surface is
modified); the `script.js` handler also leaves the DOM untouched, but
shows no notice — the error propagates as an unhandled rejection. -/
theorem c3_error_leaves_dom (dom : Dom) (f : FetchOutcome) (e : String) :
    (Part000.analyzeChat f = Except.error e →
      Part000.clickHandler dom f =
        { dom := dom, alerts := ["Error connecting to backend: " ++ e], unhandled := none }) ∧
    (ScriptJs.analyzeChat f = Except.error e →
      ScriptJs.clickHandler dom f = { dom := dom, alerts := [], unhandled := some e }) := by
  constructor
  · intro h
    simp [Part000.clickHandler, h]
  · intro h
    simp [ScriptJs.clickHandler, h]

/-- C3 (witness): the amended theorem applied to a concrete network
failure, with both hypotheses discharged by evaluation. -/
theorem c3_error_leaves_dom_witness :
    Part000.clickHandler emptyDom (FetchOutcome.networkError ("down")) =
      { dom := emptyDom, alerts := ["Error connecting to backend: " ++ "down"],
        unhandled := none } ∧
    ScriptJs.clickHandler emptyDom (FetchOutcome.networkError ("down")) =
      { dom := emptyDom, alerts := [], unhandled := some ("down") } :=
  ⟨(c3_error_leaves_dom emptyDom (FetchOutcome.networkError ("down")) ("down")).1 rfl,
   (c3_error_leaves_dom emptyDom (FetchOutcome.networkError ("down")) ("down")).2 rfl⟩

/-- C4 (counterexample): `analyzeChat` in `src/unnamed/part_000` can throw
even when the fetch succeeded and the HTTP status is a success status —
namely when `response.json()` fails to parse the body — so "throws if and
only if the status is non-success or the fetch itself fails" is false. -/
theorem c4_counterexample :
    statusOk 200 = true ∧
    Part000.analyzeChat (FetchOutcome.response 200
        (Except.error ("Unexpected end of JSON input"))) =
      Except.error ("Unexpected end of JSON input") := by
  exact ⟨by decide, rfl⟩

/-- C4 (amended): `part_000`'s `analyzeChat` throws a backend error
carrying the status code on every non-success status, propagates a fetch
failure, and on a success status returns the JSON-parse outcome of the
body — so it throws exactly when the fetch fails, the status is
non-success, or the body fails to parse; `script.js`'s `analyzeChat`
JSON-parses the body regardless of status. -/
theorem c4_status_handling (status : Nat) (body : Except String AnalysisResult) (m : String) :
    (statusOk status = false →
      Part000.analyzeChat (FetchOutcome.response status body) =
        Except.error ("Backend error: " ++ toString status)) ∧
    (statusOk status = true →
      Part000.analyzeChat (FetchOutcome.response status body) = body) ∧
    Part000.analyzeChat (FetchOutcome.networkError m) = Except.error m ∧
    ScriptJs.analyzeChat (FetchOutcome.response status body) = body ∧
    ScriptJs.analyzeChat (FetchOutcome.networkError m) = Except.error m := by
  refine ⟨?_, ?_, rfl, rfl, rfl⟩
  · intro h
    simp [Part000.analyzeChat, h]
  · intro h
    simp [Part000.analyzeChat, h]

/-- C4 (witness): the amended theorem applied at status 503 (non-success)
and at status 200 (success), with the status hypotheses discharged by
evaluation. -/
theorem c4_status_handling_witness :
    Part000.analyzeChat (FetchOutcome.response 503 (Except.ok sampleResult)) =
      Except.error ("Backend error: " ++ toString 503) ∧
    Part000.analyzeChat (FetchOutcome.response 200 (Except.ok sampleResult)) =
      Except.ok sampleResult :=
  ⟨(c4_status_handling 503 (Except.ok sampleResult) ("m")).1 (by decide),
   (c4_status_handling 200 (Except.ok sampleResult) ("m")).2.1 (by decide)⟩
